import Mathlib

/-
Verification of the Pithon teleoperated-robot control core (src/main.py).

Shallow embedding conventions:
- Python ints are Lean Int, byte streams are List Nat, wall-clock times and
  gyro samples (Python floats fed through exact comparisons only) are Rat.
- The mutable Model/GPIO dictionary is a ModelState carrying the per-channel
  current values as a function String to Int plus the ordered list of wire
  commands emitted through rpi.send (channel id, integer value).
- Qt slider setValue calls are pure display updates (the UI mirror of the
  model state) and logging calls are no-ops; both are dropped from the
  embedding. Wire output (rpi.send, conn.send) is recorded explicitly.
-/

/-! ### Actuator registry: Model.GPIO (src/main.py lines 516-529) -/

/-- One entry of Model.GPIO: key, the Type|Segment|Function tag, the initial
current value, the safe value, and the (lower, upper) bound pair. -/
structure ChanEntry where
  id : String
  meta : String
  startVal : Int
  safeVal : Int
  lower : Int
  upper : Int
deriving DecidableEq

/-- The fixed 14-entry channel table, in source (dict insertion) order. -/
def gpioTable : List ChanEntry :=
  [⟨("SN1V"), ("Servo|Neck1|Vertical"), 10, 10, -40, 60⟩,
   ⟨("SN1H"), ("Servo|Neck1|Horizontal"), 0, 0, -65, 65⟩,
   ⟨("SN2V"), ("Servo|Neck2|Vertical"), 10, 10, -40, 60⟩,
   ⟨("SN2H"), ("Servo|Neck2|Horizontal"), 0, 0, -65, 65⟩,
   ⟨("MS1F"), ("Motor|Segment1|Forwards"), 0, 0, -80, 95⟩,
   ⟨("MS1S"), ("Motor|Segment1|Sideways"), 0, 0, -90, 90⟩,
   ⟨("SJ1V"), ("Servo|Joint1|Vertical"), 0, 0, -80, 80⟩,
   ⟨("SJ1H"), ("Servo|Joint1|Horizontal"), 0, 0, -80, 80⟩,
   ⟨("MS2F"), ("Motor|Segment2|Forwards"), 0, 0, -80, 95⟩,
   ⟨("MS2S"), ("Motor|Segment2|Sideways"), 0, 0, -90, 90⟩,
   ⟨("SJ2V"), ("Servo|Joint2|Vertical"), 0, 0, -80, 80⟩,
   ⟨("SJ2H"), ("Servo|Joint2|Horizontal"), 0, 0, -80, 80⟩,
   ⟨("MS3F"), ("Motor|Segment3|Forwards"), 0, 0, -80, 95⟩,
   ⟨("MS3S"), ("Motor|Segment3|Sideways"), 0, 0, -90, 90⟩]

/-- Dictionary lookup GPIO[s]; none models a KeyError / failed membership
test (`s in self.GPIO.keys()`). -/
def lookupChan (s : String) : Option ChanEntry :=
  gpioTable.find? (fun e => e.id == s)

/-! ### Model state -/

/-- The mutable state the claims observe: current value of every channel
(GPIO[s][1]) and the ordered wire commands sent so far (each rpi.send of
`s + ":" + str(v)` is recorded as the pair (s, v)). -/
structure ModelState where
  vals : String → Int
  sent : List (String × Int)

/-- Pointwise update of the per-channel value map. -/
def setVal (f : String → Int) (k : String) (v : Int) : String → Int :=
  fun s => if s = k then v else f s

/-- The state at process start: every channel holds its configured initial
value and nothing has been sent. -/
def initRobot : ModelState :=
  ⟨fun s => match lookupChan s with
            | some e => e.startVal
            | none => 0,
   []⟩

/-- Model.bounds_check (src/main.py lines 572-580): clip v into the
channel's bound pair. The source raises KeyError for an id outside the
table; all call sites and claims use table ids, for which the lookup
succeeds. -/
def bounds_check (s : String) (v : Int) : Int :=
  match lookupChan s with
  | some e => if v < e.lower then e.lower else if v > e.upper then e.upper else v
  | none => v

/-- The suffix swap inside Model.clear_f (src/main.py lines 588-590):
the last character becomes F when it is S and S otherwise. (The source
indexes s[-1], so it presupposes a nonempty id, as all table ids are.) -/
def flipFS (s : String) : String :=
  String.mk (s.data.dropLast ++ [if s.data.getLast? = some (('S' : Char)) then ('F' : Char) else ('S' : Char)])

/-- Recursion of Model.clear_f over the given slider-id list. For each id
the swapped complement is computed; if it is not a GPIO key the function
returns early with none (Python `return` with no value), keeping the
mutations already made; otherwise the complement's current value is set
to 0 and a zero-command is emitted, and the loop continues. At the end
the copied input list is returned. -/
def clear_f_go (orig : List String) : List String → ModelState → ModelState × Option (List String)
  | [], st => (st, some orig)
  | s :: rest, st =>
      let s2 := flipFS s
      if (lookupChan s2).isSome then
        clear_f_go orig rest
          { st with vals := setVal st.vals s2 0, sent := st.sent ++ [(s2, 0)] }
      else (st, none)

/-- Model.clear_f (src/main.py lines 585-596). -/
def clear_f (sliders : List String) (st : ModelState) : ModelState × Option (List String) :=
  clear_f_go sliders sliders st

/-- The value_changed closure built by Model.slider_value (src/main.py
lines 598-604): clear the F/S complement, clip the raw slider value,
store it, and send the command. The clear_f return value is discarded
(only its state effect persists). -/
def slider_value (nm : String) (raw : Int) (st : ModelState) : ModelState :=
  let st1 := (clear_f [nm] st).1
  let v := bounds_check nm raw
  { st1 with vals := setVal st1.vals nm v, sent := st1.sent ++ [(nm, v)] }

/-- The value_changed closure built by Model.forwards (src/main.py lines
606-613): read the raw slider value, clear the Sideways complements of the
three Motor Forward channels, then store and send that same raw value to
each Forward channel with no bounds_check. none models the TypeError the
source would raise iterating a None return of clear_f (unreachable for
this fixed list, whose complements all exist). -/
def forwards (raw : Int) (st : ModelState) : Option ModelState :=
  match clear_f [("MS1F"), ("MS2F"), ("MS3F")] st with
  | (st1, some ss) =>
      some (ss.foldl
        (fun acc s => { acc with vals := setVal acc.vals s raw, sent := acc.sent ++ [(s, raw)] })
        st1)
  | (_, none) => none

/-- The filter x.startswith of the one-character tag S, written as a test
on the first character (equivalent for the nonempty table ids). -/
def startsS (s : String) : Bool :=
  s.data.head? == some (('S' : Char))

/-- The category component of an entry's Type|Segment|Function tag: the
characters before the first separator bar (Servo or Motor). -/
def category (e : ChanEntry) : String :=
  String.mk (e.meta.data.takeWhile (fun c => c ≠ ('|' : Char)))

/-- Model.safe_value (src/main.py lines 644-649): for every GPIO key
starting with S (exactly the Servo channels), store the configured safe
value unclipped and send it. The Turn indicator reset
(control_panel.sliders Turn setValue 0) is a display update of a non-GPIO
control and so has no model-state effect here. -/
def safe_value (st : ModelState) : ModelState :=
  (gpioTable.filter (fun e => startsS e.id)).foldl
    (fun acc e => { acc with vals := setVal acc.vals e.id e.safeVal, sent := acc.sent ++ [(e.id, e.safeVal)] })
    st

/-! ### Connection: Rpi and Server (src/main.py lines 52-68 and 99-121) -/

/-- Observable connection state: the Rpi alive flag, the ordered outbound
lines written by Rpi.send, and the closed flags of the receive stream file
and the listening socket. -/
structure ConnState where
  alive : Bool
  sentLines : List String
  streamClosed : Bool
  sockClosed : Bool
deriving DecidableEq

/-- Rpi.send (src/main.py lines 58-63): when alive, write the line;
otherwise only log a warning, leaving every observable unchanged and
raising nothing. -/
def rpiSend (msg : String) (st : ConnState) : ConnState :=
  if st.alive then { st with sentLines := st.sentLines ++ [msg] } else st

/-- Server.disconnect (src/main.py lines 113-121): when sd, send the
shutdown token line and clear the alive flag; in every case close the
stream file and the listening socket (both closes are idempotent in
Python and modelled as flag sets). -/
def serverDisconnect (sd : Bool) (st : ConnState) : ConnState :=
  let st1 := if sd then { rpiSend ("sd") st with alive := false } else st
  { st1 with streamClosed := true, sockClosed := true }

/-! ### Telemetry de-framer: Stream (src/main.py lines 71-96) -/

/-- One decoded telemetry frame: the sequence counter value, the image
payload bytes, and the 24 raw bytes holding the six little-endian float32
accel/gyro samples (kept as delimited bytes; the frames' float decoding is
bit-pattern reinterpretation irrelevant to the framing claims). -/
structure Frame where
  seq : Nat
  image : List Nat
  agdata : List Nat
deriving DecidableEq

/-- Iterator state: the bytes remaining in the inbound stream and the
frame counter i. -/
structure StreamState where
  bytes : List Nat
  i : Nat
deriving DecidableEq

/-- Little-endian unsigned 32-bit read, struct format L. -/
def leU32 (b0 b1 b2 b3 : Nat) : Nat :=
  b0 + 256 * b1 + 65536 * b2 + 16777216 * b3

/-- The imageLen field declared by a frame header: its first four bytes
little-endian. -/
def declaredLen (hdr : List Nat) : Nat :=
  leU32 (hdr.getD 0 0) (hdr.getD 1 0) (hdr.getD 2 0) (hdr.getD 3 0)

/-- Stream.next (src/main.py lines 80-96). struct.calcsize of Lffffff is
28; stream.read returns at most what remains, and struct.unpack raises
struct.error on a short buffer, caught and turned into StopIteration
(none). The image read `stream.read(image_len)` performs no length check:
whatever bytes remain (possibly fewer than imageLen) become the frame's
image buffer and the frame is returned. -/
def streamNext (st : StreamState) : Option (Frame × StreamState) :=
  let i := st.i + 1
  if 28 ≤ st.bytes.length then
    let hdr := st.bytes.take 28
    let rest := st.bytes.drop 28
    let imageLen := declaredLen hdr
    some (⟨i, rest.take imageLen, hdr.drop 4⟩, ⟨rest.drop imageLen, i⟩)
  else none

/-! ### Orientation estimator: Model.process_ag2 (src/main.py lines 561-570),
invoked for every inbound sample by Simulator.recv_data (lines 718-720) -/

/-- Estimator state: Model.TIMESTAMP (initially 0.0) and the sequence of
rotation reports pushed to the simulator. A report is recorded as the
Euler-angle increment triple (gx*dt, gy*dt, gz*dt) handed to
quaternion.from_euler_angles; the displayed rotation vector is a pure
function of this triple, computed downstream of the emission the claims
are about. -/
structure OrientState where
  timestamp : ℚ
  reports : List (ℚ × ℚ × ℚ)
deriving DecidableEq

/-- The estimator state at connection establishment: TIMESTAMP = 0.0 and
nothing reported. -/
def orientStart : OrientState := ⟨0, []⟩

/-- Model.process_ag2: compute dt = now - TIMESTAMP, emit the rotation
report built from the gyro sample scaled by dt, and store now as the new
TIMESTAMP. There is no first-sample branch: every call emits. -/
def process_ag2 (now gx gy gz : ℚ) (st : OrientState) : OrientState :=
  let dt := now - st.timestamp
  ⟨now, st.reports ++ [(gx * dt, gy * dt, gz * dt)]⟩

/-- A concrete inbound stream whose frame header declares imageLen = 5
while only 2 payload bytes follow the 28-byte header. -/
def c3bytes : List Nat := [5, 0, 0, 0] ++ List.replicate 24 0 ++ [7, 7]

/-! ## Claim theorems -/

/-- Claim C1: setting either channel of a Motor Forward/Sideways pair
zeroes the complement's stored value and emits its zero-command within the
same set operation before the new value is stored and sent; in particular
set MS1F x (x nonzero) then set MS1S y leaves MS1F at 0 and MS1S at the
clip of y, and symmetrically with the order reversed; after any
single-channel set on a Motor pair member the complement holds 0, so at
most one of the pair is nonzero. -/
theorem fs_exclusion_set (st : ModelState) (x y : Int) (hx : x ≠ 0) :
    (slider_value ("MS1S") y (slider_value ("MS1F") x st)).vals ("MS1F") = 0 ∧
    (slider_value ("MS1S") y (slider_value ("MS1F") x st)).vals ("MS1S") = bounds_check ("MS1S") y ∧
    (slider_value ("MS1F") y (slider_value ("MS1S") x st)).vals ("MS1S") = 0 ∧
    (slider_value ("MS1F") y (slider_value ("MS1S") x st)).vals ("MS1F") = bounds_check ("MS1F") y ∧
    (slider_value ("MS1F") x st).vals ("MS1S") = 0 ∧
    (slider_value ("MS1F") x st).sent = st.sent ++ [(("MS1S"), 0), (("MS1F"), bounds_check ("MS1F") x)] ∧
    (slider_value ("MS1S") y (slider_value ("MS1F") x st)).sent =
      (slider_value ("MS1F") x st).sent ++ [(("MS1F"), 0), (("MS1S"), bounds_check ("MS1S") y)] ∧
    ∀ m ∈ ([("MS1F"), ("MS1S"), ("MS2F"), ("MS2S"), ("MS3F"), ("MS3S")] : List String),
      ∀ (v : Int) (st2 : ModelState), (slider_value m v st2).vals (flipFS m) = 0 := by
  refine ⟨rfl, rfl, rfl, rfl, rfl, ?_, ?_, ?_⟩
  · simp [slider_value, clear_f, clear_f_go, flipFS, lookupChan, gpioTable]
  · simp [slider_value, clear_f, clear_f_go, flipFS, lookupChan, gpioTable, setVal]
  · intro m hm v st2
    fin_cases hm <;> rfl

/-- Witness for fs_exclusion_set at the initial state with x = 7, y = 3. -/
theorem fs_exclusion_set_witness :
    (7 : Int) ≠ 0 ∧
    (slider_value ("MS1S") 3 (slider_value ("MS1F") 7 initRobot)).vals ("MS1F") = 0 ∧
    (slider_value ("MS1S") 3 (slider_value ("MS1F") 7 initRobot)).vals ("MS1S") = bounds_check ("MS1S") 3 :=
  ⟨by decide, (fs_exclusion_set initRobot 7 3 (by decide)).1, (fs_exclusion_set initRobot 7 3 (by decide)).2.1⟩

/-- Claim C2: for every channel of the 14-entry table and every integer v,
bounds_check clips v into that channel's bound pair, is the identity on
in-range values, and never rejects; for SN1H with bounds (-65, 65) the
input 9999 gives 65 and -9999 gives -65. -/
theorem bounds_check_clips :
    (∀ e ∈ gpioTable, ∀ v : Int,
      e.lower ≤ bounds_check e.id v ∧ bounds_check e.id v ≤ e.upper ∧
      (e.lower ≤ v → v ≤ e.upper → bounds_check e.id v = v)) ∧
    bounds_check ("SN1H") 9999 = 65 ∧ bounds_check ("SN1H") (-9999) = -65 := by
  refine ⟨?_, by decide, by decide⟩
  intro e he v
  fin_cases he <;>
    (simp [bounds_check, lookupChan, gpioTable]; split_ifs <;> omega)

/-- Witness for bounds_check_clips at the SN1H entry with the in-range
input 30. -/
theorem bounds_check_clips_witness :
    -65 ≤ bounds_check ("SN1H") 30 ∧ bounds_check ("SN1H") 30 ≤ 65 ∧ bounds_check ("SN1H") 30 = 30 :=
  have h := bounds_check_clips.1 ⟨("SN1H"), ("Servo|Neck1|Horizontal"), 0, 0, -65, 65⟩ (by decide) 30
  ⟨h.1, h.2.1, h.2.2 (by decide) (by decide)⟩

/-- Claim C3 counterexample: on a stream whose header declares imageLen = 5
with only 2 payload bytes remaining, Stream.next does not terminate the
sequence; it yields the corrupt frame (with the short 2-byte image buffer),
contrary to the claim that the frame is not yielded. -/
theorem truncated_payload_cex :
    declaredLen (c3bytes.take 28) = 5 ∧
    c3bytes.length - 28 = 2 ∧
    streamNext ⟨c3bytes, 0⟩ = some (⟨1, [7, 7], List.replicate 24 0⟩, ⟨[], 1⟩) := by decide

/-- Claim C3 (amended): when the header declares more payload bytes than
remain, Stream.next yields the corrupt frame carrying every remaining byte
as its image buffer, leaving an empty stream, and the sequence terminates
at the next call (whose header read comes up short); no resynchronization
is attempted. -/
theorem truncated_payload_yields_frame (st : StreamState)
    (h28 : 28 ≤ st.bytes.length)
    (hshort : st.bytes.length - 28 < declaredLen (st.bytes.take 28)) :
    streamNext st = some (⟨st.i + 1, st.bytes.drop 28, (st.bytes.take 28).drop 4⟩, ⟨[], st.i + 1⟩) ∧
    streamNext ⟨[], st.i + 1⟩ = none := by
  constructor
  · have hlen : (st.bytes.drop 28).length ≤ declaredLen (st.bytes.take 28) := by
      simp [List.length_drop]
      omega
    simp only [streamNext, if_pos h28]
    rw [List.take_of_length_le hlen, List.drop_eq_nil_of_le hlen]
  · simp [streamNext]

/-- Witness for truncated_payload_yields_frame on the concrete stream
c3bytes. -/
theorem truncated_payload_yields_frame_witness :
    28 ≤ c3bytes.length ∧ c3bytes.length - 28 < declaredLen (c3bytes.take 28) ∧
    streamNext ⟨c3bytes, 0⟩ = some (⟨1, c3bytes.drop 28, (c3bytes.take 28).drop 4⟩, ⟨[], 1⟩) :=
  ⟨by decide, by decide, (truncated_payload_yields_frame ⟨c3bytes, 0⟩ (by decide) (by decide)).1⟩

/-- Claim C4 counterexample: the very first sample handed to process_ag2
(the handler Simulator.recv_data invokes) does emit a rotation report:
from the start state (TIMESTAMP = 0, nothing reported), a sample at time 5
with gyro rates (1, 2, 3) produces the report built from dt = 5 - 0,
contrary to the claim that the first sample only seeds the timestamp. -/
theorem first_sample_emits_cex :
    (process_ag2 5 1 2 3 orientStart).reports ≠ [] ∧
    (process_ag2 5 1 2 3 orientStart).reports = [(5, 10, 15)] := by
  constructor
  · simp [process_ag2, orientStart]
  · simp [process_ag2, orientStart]
    norm_num

/-- Claim C4 (amended): every sample processed by process_ag2, the first
included, emits exactly one rotation report, computed from
dt = now - TIMESTAMP with TIMESTAMP initially 0, and then stores now as
the new TIMESTAMP; no seeding-only first sample exists on this path. -/
theorem process_ag2_always_emits (now gx gy gz : ℚ) (st : OrientState) :
    (process_ag2 now gx gy gz st).timestamp = now ∧
    (process_ag2 now gx gy gz st).reports =
      st.reports ++ [(gx * (now - st.timestamp), gy * (now - st.timestamp), gz * (now - st.timestamp))] ∧
    (process_ag2 now gx gy gz st).reports.length = st.reports.length + 1 :=
  ⟨rfl, rfl, by simp [process_ag2]⟩

/-- Claim C5 counterexample: Model.forwards applies no clipping: the raw
value 100 is stored on MS1F even though bounds_check would clip it to the
channel's upper bound 95, contrary to the claim that the stored value is
clipped per-channel. -/
theorem forwards_no_clip_cex :
    (forwards 100 initRobot).map (fun s => s.vals ("MS1F")) = some 100 ∧
    bounds_check ("MS1F") 100 = 95 ∧ (100 : Int) ≠ 95 := by decide

/-- Claim C5 (amended): for every integer rawValue and state, the
broadcast-forward operation clears the Sideways complement of each of the
three Motor Forward channels (storing 0 and emitting a zero-command for
each) and then stores the same rawValue, unclipped, on each Forward
channel, emitting the corresponding commands in order. -/
theorem forwards_sets_raw (raw : Int) (st : ModelState) :
    (forwards raw st).map (fun s => s.vals ("MS1F")) = some raw ∧
    (forwards raw st).map (fun s => s.vals ("MS2F")) = some raw ∧
    (forwards raw st).map (fun s => s.vals ("MS3F")) = some raw ∧
    (forwards raw st).map (fun s => s.vals ("MS1S")) = some 0 ∧
    (forwards raw st).map (fun s => s.vals ("MS2S")) = some 0 ∧
    (forwards raw st).map (fun s => s.vals ("MS3S")) = some 0 ∧
    (forwards raw st).map (fun s => s.sent) =
      some (st.sent ++ [(("MS1S"), 0), (("MS2S"), 0), (("MS3S"), 0),
                        (("MS1F"), raw), (("MS2F"), raw), (("MS3F"), raw)]) := by
  refine ⟨rfl, rfl, rfl, rfl, rfl, rfl, ?_⟩
  simp [forwards, clear_f, clear_f_go, flipFS, lookupChan, gpioTable, setVal]

/-- Claim C7: after the first disconnect with the shutdown flag from a
live connection that has not yet sent the shutdown token, the alive flag
is false, the shutdown line was sent exactly once, both close flags are
set, a repeated disconnect with the flag changes nothing observable (no
fault: every operation is total) and keeps the count at one, and every
subsequent send is a no-op leaving the state unchanged. -/
theorem disconnect_shutdown_once (st : ConnState) (ha : st.alive = true)
    (h0 : st.sentLines.count ("sd") = 0) :
    (serverDisconnect true st).alive = false ∧
    (serverDisconnect true st).sentLines.count ("sd") = 1 ∧
    (serverDisconnect true st).streamClosed = true ∧
    (serverDisconnect true st).sockClosed = true ∧
    (serverDisconnect true (serverDisconnect true st)).sentLines.count ("sd") = 1 ∧
    (serverDisconnect true (serverDisconnect true st)).alive = false ∧
    ∀ m, rpiSend m (serverDisconnect true st) = serverDisconnect true st := by
  simp [serverDisconnect, rpiSend, ha, List.count_append, h0]

/-- Witness for disconnect_shutdown_once from the fresh connection state. -/
theorem disconnect_shutdown_once_witness :
    (serverDisconnect true ⟨true, [], false, false⟩).alive = false ∧
    (serverDisconnect true ⟨true, [], false, false⟩).sentLines.count ("sd") = 1 ∧
    (serverDisconnect true (serverDisconnect true ⟨true, [], false, false⟩)).sentLines.count ("sd") = 1 ∧
    rpiSend ("go") (serverDisconnect true ⟨true, [], false, false⟩) = serverDisconnect true ⟨true, [], false, false⟩ :=
  have h := disconnect_shutdown_once ⟨true, [], false, false⟩ rfl rfl
  ⟨h.1, h.2.1, h.2.2.2.2.1, h.2.2.2.2.2.2 ("go")⟩

/-- Claim C8: an inbound stream holding fewer than the 28 header bytes
(e.g. one truncated after 10 bytes) makes Stream.next end the sequence
with a clean end-of-stream result (the caught struct.error becomes
StopIteration, modelled as none), yielding no frame and raising nothing
to the consumer. -/
theorem stream_short_header_ends (st : StreamState) (h : st.bytes.length < 28) :
    streamNext st = none := by
  simp [streamNext]
  omega

/-- Witness for stream_short_header_ends on a stream of 10 bytes. -/
theorem stream_short_header_ends_witness :
    (List.replicate 10 (0 : Nat)).length < 28 ∧ streamNext ⟨List.replicate 10 0, 0⟩ = none :=
  ⟨by decide, stream_short_header_ends ⟨List.replicate 10 0, 0⟩ (by decide)⟩

/-- Claim C9: safe_value stores each Servo-category channel's configured
safe value (unclipped) and emits the corresponding command for each, in
table order, while every Motor-category channel's current value is left
unchanged; the keys-starting-with-S filter used by the source coincides
with the Servo category on the whole table. -/
theorem safe_value_spec (st : ModelState) :
    (∀ e ∈ gpioTable, category e = ("Servo") → (safe_value st).vals e.id = e.safeVal) ∧
    (∀ e ∈ gpioTable, category e = ("Motor") → (safe_value st).vals e.id = st.vals e.id) ∧
    (safe_value st).sent = st.sent ++
      ((gpioTable.filter (fun e => startsS e.id)).map (fun e => (e.id, e.safeVal))) ∧
    gpioTable.all (fun e => startsS e.id == (category e == ("Servo"))) = true := by
  refine ⟨?_, ?_, ?_, by decide⟩
  · intro e he
    fin_cases he <;> (intro h; first | rfl | exact absurd h (by decide))
  · intro e he
    fin_cases he <;> (intro h; first | rfl | exact absurd h (by decide))
  · simp [safe_value, gpioTable, startsS, setVal]

/-- Witness for safe_value_spec at the initial state, on the Servo channel
SN1V and the Motor channel MS1F. -/
theorem safe_value_spec_witness :
    (safe_value initRobot).vals ("SN1V") = 10 ∧
    (safe_value initRobot).vals ("MS1F") = initRobot.vals ("MS1F") :=
  ⟨(safe_value_spec initRobot).1 ⟨("SN1V"), ("Servo|Neck1|Vertical"), 10, 10, -40, 60⟩ (by decide) (by decide),
   (safe_value_spec initRobot).2.1 ⟨("MS1F"), ("Motor|Segment1|Forwards"), 0, 0, -80, 95⟩ (by decide) (by decide)⟩

/-- Claim C10: disconnect without the shutdown flag leaves the alive flag
true while closing the receive stream file and the listening socket, so a
subsequent send does not take the logged no-op branch but performs a real
transmission, appending its line to the outbound traffic. -/
theorem disconnect_false_keeps_alive (st : ConnState) (ha : st.alive = true) :
    (serverDisconnect false st).alive = true ∧
    (serverDisconnect false st).streamClosed = true ∧
    (serverDisconnect false st).sockClosed = true ∧
    ∀ m, (rpiSend m (serverDisconnect false st)).sentLines =
      (serverDisconnect false st).sentLines ++ [m] := by
  simp [serverDisconnect, rpiSend, ha]

/-- Witness for disconnect_false_keeps_alive on a live connection with one
line already sent. -/
theorem disconnect_false_keeps_alive_witness :
    (serverDisconnect false ⟨true, [("a")], false, false⟩).alive = true ∧
    (rpiSend ("b") (serverDisconnect false ⟨true, [("a")], false, false⟩)).sentLines =
      (serverDisconnect false ⟨true, [("a")], false, false⟩).sentLines ++ [("b")] :=
  have h := disconnect_false_keeps_alive ⟨true, [("a")], false, false⟩ rfl
  ⟨h.1, h.2.2.2 ("b")⟩
